import Mathlib

/-!
Shallow embedding of the test-oracle series generators of
`integration/util.go` (grafana/mimir): the histogram variant encoders, the
single-series generator `generateHistogramSeriesWrapper` and its four public
entry points, the bulk generator `GenerateNHistogramSeries`, and the variant
selector `generateAlternatingSeries`.

Timestamps are epoch values modelled as integers (the framework conversion
`e2e.TimeToMilliseconds` is modelled as truncated division of a nanosecond
epoch value by 10^6).  The process-wide random source is modelled by passing
the raw draw explicitly: `rand.Intn 1000` becomes `randIntn draw 1000`.
Go float64 values that are only ever produced from integer seeds and compared
for equality are modelled as integers.
-/

namespace Mimir

/-- A name/value pair, mirroring `prompb.Label`. -/
structure Label where
  name : String
  value : String
deriving DecidableEq, Repr

/-- The reserved metric-name label name, `labels.MetricName`. -/
def metricName : String := "__name__"

/-- The statistical value of a native histogram: total count, total sum and
bucket contents (spec section 3). -/
structure StatValue where
  count : Int
  sum : Int
  buckets : List Int
deriving DecidableEq, Repr

/-- Reset semantics marker: counter or gauge histogram. -/
inductive ResetKind where
  | counter
  | gauge
deriving DecidableEq, Repr

/-- Bucket-count representation marker: integer or floating-point. -/
inductive NumKind where
  | integerBuckets
  | floatBuckets
deriving DecidableEq, Repr

/-- Modelled from the spec: the shared deterministic scheme of the histogram
variant encoders in `pkg/util/test` (not under `src/`).  Spec section 4.1:
all four variants "derive bucket boundaries, per-bucket counts, total count,
and total sum from `v` using the *same* underlying deterministic scheme".
The concrete numbers below are representative; the spec fixes only that the
scheme is a single deterministic, total function of the seed. -/
def statScheme (v : Int) : StatValue :=
  { count := 10 + 8 * v, sum := 184 * (v + 1), buckets := [v + 1, 1, v + 2, 2] }

/-- An in-memory write-path native histogram (models the
`histogram.Histogram` / `histogram.FloatHistogram` family). -/
structure NativeHistogram where
  stat : StatValue
  reset : ResetKind
  num : NumKind
deriving DecidableEq, Repr

/-- Modelled from the spec: `test.GenerateTestHistogram` (counter/integer
variant encoder, `pkg/util/test`, not under `src/`). -/
def generateTestHistogram (v : Int) : NativeHistogram :=
  { stat := statScheme v, reset := ResetKind.counter, num := NumKind.integerBuckets }

/-- Modelled from the spec: `test.GenerateTestFloatHistogram` (counter/float
variant encoder, `pkg/util/test`, not under `src/`). -/
def generateTestFloatHistogram (v : Int) : NativeHistogram :=
  { stat := statScheme v, reset := ResetKind.counter, num := NumKind.floatBuckets }

/-- Modelled from the spec: `test.GenerateTestGaugeHistogram` (gauge/integer
variant encoder, `pkg/util/test`, not under `src/`). -/
def generateTestGaugeHistogram (v : Int) : NativeHistogram :=
  { stat := statScheme v, reset := ResetKind.gauge, num := NumKind.integerBuckets }

/-- Modelled from the spec: `test.GenerateTestGaugeFloatHistogram`
(gauge/float variant encoder, `pkg/util/test`, not under `src/`). -/
def generateTestGaugeFloatHistogram (v : Int) : NativeHistogram :=
  { stat := statScheme v, reset := ResetKind.gauge, num := NumKind.floatBuckets }

/-- The read-path sample histogram (models `model.SampleHistogram`): the
statistical value as it appears in query results. -/
structure SampleHistogram where
  stat : StatValue
deriving DecidableEq, Repr

/-- Modelled from the spec: `test.GenerateTestSampleHistogram`
(`pkg/util/test`, not under `src/`): the read-path conversion producing, for
seed `v`, a sample histogram whose statistical value follows the same
deterministic scheme as the wire-format encoders (spec sections 3 and 4.2:
"statistical value derived from `v` via the read-path conversion" that
"must be value-equal" to the wire-format histogram). -/
def generateTestSampleHistogram (v : Int) : SampleHistogram :=
  { stat := statScheme v }

/-- A wire-format histogram sample (models `prompb.Histogram`). -/
structure PrompbHistogram where
  timestamp : Int
  stat : StatValue
  reset : ResetKind
  num : NumKind
deriving DecidableEq, Repr

/-- Modelled from the spec: `remote.HistogramToHistogramProto` (external
write-path conversion), carrying the integer histogram's statistical value
and kind markers onto the wire unchanged, stamped with the sample
timestamp. -/
def HistogramToHistogramProto (tsMillis : Int) (h : NativeHistogram) : PrompbHistogram :=
  { timestamp := tsMillis, stat := h.stat, reset := h.reset, num := h.num }

/-- Modelled from the spec: `remote.FloatHistogramToHistogramProto` (external
write-path conversion for float histograms). -/
def FloatHistogramToHistogramProto (tsMillis : Int) (h : NativeHistogram) : PrompbHistogram :=
  { timestamp := tsMillis, stat := h.stat, reset := h.reset, num := h.num }

/-- A wire-format exemplar (models `prompb.Exemplar`); its value is a float64
produced from an integer seed, modelled as that integer. -/
structure Exemplar where
  value : Int
  timestamp : Int
  labels : List Label
deriving DecidableEq, Repr

/-- A wire-format time series (models `prompb.TimeSeries` as populated by the
histogram generators: label list, exemplar list, histogram-sample list). -/
structure TimeSeries where
  labels : List Label
  exemplars : List Exemplar
  histograms : List PrompbHistogram
deriving DecidableEq, Repr

/-- Models `model.Metric`: a label-name-keyed mapping, modelled as an association
list with map-assignment (set-key) update semantics. -/
abbrev Metric : Type := List (String × String)

/-- Go map assignment `m[n] = v`: replace the value when the key is present,
otherwise add the binding. -/
def metricSet (m : Metric) (n v : String) : Metric :=
  if m.any (fun p => p.1 = n) then
    m.map (fun p => if p.1 = n then (n, v) else p)
  else
    m ++ [(n, v)]

/-- The expected instant-query result entry (models `model.Sample` as used
here: metric, timestamp and histogram value; no exemplar field exists). -/
structure Sample where
  metric : Metric
  timestamp : Int
  histogram : SampleHistogram
deriving DecidableEq, Repr

/-- One (timestamp, histogram) pair of an expected range-query stream
(models `model.SampleHistogramPair`). -/
structure SampleHistogramPair where
  timestamp : Int
  histogram : SampleHistogram
deriving DecidableEq, Repr

/-- The expected range-query result entry (models `model.SampleStream` as
used here: metric and histogram pairs; no exemplar field exists). -/
structure SampleStream where
  metric : Metric
  histograms : List SampleHistogramPair
deriving DecidableEq, Repr

/-- Models `e2e.TimeToMilliseconds`, the framework's timestamp conversion, modelled
on nanosecond epoch integers as truncated division by 10^6. -/
def timeToMilliseconds (ts : Int) : Int := Int.tdiv ts 1000000

/-- Models `rand.Intn n` for `n > 0`: the draw from the shared random source,
modelled by reducing an explicitly passed raw draw modulo `n`. -/
def randIntn (draw : Nat) (n : Nat) : Nat := draw % n

/-- Builds the `model.Metric` map of `generateHistogramSeriesWrapper`
(util.go lines 204-208): insert the metric-name label, then each additional
label in order, with map-assignment semantics. -/
def wrapperMetric (name : String) (additionalLabels : List Label) : Metric :=
  additionalLabels.foldl (fun m l => metricSet m l.name l.value)
    (metricSet [] metricName name)

/-- Embeds `generateHistogramSeriesWrapper` (util.go lines 180-227).  The random
draw is passed explicitly; `value = randIntn draw 1000` mirrors
`value := rand.Intn(1000)`. -/
def generateHistogramSeriesWrapper (generateHistogram : Int → Int → PrompbHistogram)
    (name : String) (ts : Int) (draw : Nat) (additionalLabels : List Label) :
    List TimeSeries × List Sample × List SampleStream :=
  let tsMillis := timeToMilliseconds ts
  let value : Int := (randIntn draw 1000 : Nat)
  let lbls := { name := metricName, value := name } :: additionalLabels
  let series : List TimeSeries :=
    [{ labels := lbls,
       exemplars := [{ value := value, timestamp := tsMillis,
                       labels := [{ name := "trace_id", value := "1234" }] }],
       histograms := [generateHistogram tsMillis value] }]
  let metric := wrapperMetric name additionalLabels
  let vector : List Sample :=
    [{ metric := metric, timestamp := tsMillis,
       histogram := generateTestSampleHistogram value }]
  let matrix : List SampleStream :=
    [{ metric := metric,
       histograms := [{ timestamp := tsMillis,
                        histogram := generateTestSampleHistogram value }] }]
  (series, vector, matrix)

/-- Embeds `GenerateHistogramSeries` (util.go lines 156-160). -/
def GenerateHistogramSeries (name : String) (ts : Int) (draw : Nat)
    (additionalLabels : List Label) : List TimeSeries × List Sample × List SampleStream :=
  generateHistogramSeriesWrapper
    (fun tsMillis value => HistogramToHistogramProto tsMillis (generateTestHistogram value))
    name ts draw additionalLabels

/-- Embeds `GenerateFloatHistogramSeries` (util.go lines 162-166). -/
def GenerateFloatHistogramSeries (name : String) (ts : Int) (draw : Nat)
    (additionalLabels : List Label) : List TimeSeries × List Sample × List SampleStream :=
  generateHistogramSeriesWrapper
    (fun tsMillis value => FloatHistogramToHistogramProto tsMillis (generateTestFloatHistogram value))
    name ts draw additionalLabels

/-- Embeds `GenerateGaugeHistogramSeries` (util.go lines 168-172). -/
def GenerateGaugeHistogramSeries (name : String) (ts : Int) (draw : Nat)
    (additionalLabels : List Label) : List TimeSeries × List Sample × List SampleStream :=
  generateHistogramSeriesWrapper
    (fun tsMillis value => HistogramToHistogramProto tsMillis (generateTestGaugeHistogram value))
    name ts draw additionalLabels

/-- Embeds `GenerateGaugeFloatHistogramSeries` (util.go lines 174-178). -/
def GenerateGaugeFloatHistogramSeries (name : String) (ts : Int) (draw : Nat)
    (additionalLabels : List Label) : List TimeSeries × List Sample × List SampleStream :=
  generateHistogramSeriesWrapper
    (fun tsMillis value => FloatHistogramToHistogramProto tsMillis (generateTestGaugeFloatHistogram value))
    name ts draw additionalLabels

/-- The four histogram variants, used to quantify over the four public
single-series generators. -/
inductive HistVariant where
  | counterInt
  | counterFloat
  | gaugeInt
  | gaugeFloat
deriving DecidableEq, Repr

/-- Dispatches a variant to its public single-series generator. -/
def variantGenerator (v : HistVariant) :
    String → Int → Nat → List Label → List TimeSeries × List Sample × List SampleStream :=
  match v with
  | HistVariant.counterInt => GenerateHistogramSeries
  | HistVariant.counterFloat => GenerateFloatHistogramSeries
  | HistVariant.gaugeInt => GenerateGaugeHistogramSeries
  | HistVariant.gaugeFloat => GenerateGaugeFloatHistogramSeries

/-- The label list of series `i` in `GenerateNHistogramSeries` (util.go
lines 234-239): metric-name label from the `name` callback, then the labels
from the optional `additionalLabels` callback.  Callback invocations are
indexed by the loop counter. -/
def nSeriesLabels (name : Nat → String)
    (additionalLabels : Option (Nat → List Label)) (i : Nat) : List Label :=
  { name := metricName, value := name i } ::
    (match additionalLabels with
     | some f => f i
     | none => [])

/-- Series `i` built by the first loop of `GenerateNHistogramSeries`
(util.go lines 233-253): histogram from seed `i`, exemplar with value `i`
only when `i < nExemplars`. -/
def nSeriesEntry (nExemplars : Int) (name : Nat → String) (tsMillis : Int)
    (additionalLabels : Option (Nat → List Label)) (i : Nat) : TimeSeries :=
  { labels := nSeriesLabels name additionalLabels i,
    exemplars :=
      if (i : Int) < nExemplars then
        [{ value := (i : Int), timestamp := tsMillis,
           labels := [{ name := "trace_id", value := "1234" }] }]
      else [],
    histograms := [HistogramToHistogramProto tsMillis (generateTestHistogram (i : Int))] }

/-- Reads a wire label list into a `model.Metric` map, mirroring the loop of
util.go lines 257-260 (map assignment per label, in list order). -/
def metricOfLabels (ls : List Label) : Metric :=
  ls.foldl (fun m l => metricSet m l.name l.value) []

/-- Embeds `GenerateNHistogramSeries` (util.go lines 229-269).  The first loop
becomes a map over `List.range nSeries.toNat` (the Go loop body runs exactly
`max nSeries 0` times); the second loop, which reads `series[i].Labels` from
the already-built series, becomes `mapIdx` over the built series list. -/
def GenerateNHistogramSeries (nSeries nExemplars : Int) (name : Nat → String)
    (ts : Int) (additionalLabels : Option (Nat → List Label)) :
    List TimeSeries × List Sample :=
  let tsMillis := timeToMilliseconds ts
  let series : List TimeSeries :=
    (List.range nSeries.toNat).map (nSeriesEntry nExemplars name tsMillis additionalLabels)
  let vector : List Sample :=
    series.mapIdx (fun i s =>
      { metric := metricOfLabels s.labels, timestamp := tsMillis,
        histogram := generateTestSampleHistogram (i : Int) })
  (series, vector)

/-- The codomain of the variant selector: references to the five series
generator functions, plus the `nil` function reference of the `default`
branch (util.go lines 59-74). -/
inductive SeriesGen where
  | floatSeries
  | histogramSeries
  | floatHistogramSeries
  | gaugeHistogramSeries
  | gaugeFloatHistogramSeries
  | nilGen
deriving DecidableEq, Repr

/-- Embeds `generateAlternatingSeries` (util.go lines 59-74): a switch on `i % 5`,
where Go `%` on `int` is the truncated remainder (`Int.tmod`). -/
def generateAlternatingSeries (i : Int) : SeriesGen :=
  if Int.tmod i 5 = 0 then SeriesGen.floatSeries
  else if Int.tmod i 5 = 1 then SeriesGen.histogramSeries
  else if Int.tmod i 5 = 2 then SeriesGen.floatHistogramSeries
  else if Int.tmod i 5 = 3 then SeriesGen.gaugeHistogramSeries
  else if Int.tmod i 5 = 4 then SeriesGen.gaugeFloatHistogramSeries
  else SeriesGen.nilGen

/-- The (name, value) pairs of a wire label list. -/
def labelPairs (ls : List Label) : List (String × String) :=
  ls.map (fun l => (l.name, l.value))

/-- The variant selector output is a function of `i % 5` alone (the switch
scrutinee of util.go line 60). -/
theorem generateAlternatingSeries_congr (i j : Int) (h : Int.tmod i 5 = Int.tmod j 5) :
    generateAlternatingSeries i = generateAlternatingSeries j := by
  simp only [generateAlternatingSeries, h]

/-- C1: for every random draw (hence every seed value `v` in `[0, 1000)`,
since `v = draw % 1000`) and each of the four histogram variants, the
statistical value of the wire-format histogram placed in the generated
series equals the statistical value of the sample histogram placed in the
expected vector entry and in the expected matrix entry of the same call. -/
theorem histogram_series_stat_correspondence (variant : HistVariant) (name : String)
    (ts : Int) (draw : Nat) (additionalLabels : List Label) :
    ((variantGenerator variant name ts draw additionalLabels).1.map
        (fun t => t.histograms.map (fun h => h.stat)))
      = ((variantGenerator variant name ts draw additionalLabels).2.1.map
        (fun s => [s.histogram.stat]))
    ∧ ((variantGenerator variant name ts draw additionalLabels).2.1.map
        (fun s => [s.histogram.stat]))
      = ((variantGenerator variant name ts draw additionalLabels).2.2.map
        (fun m => m.histograms.map (fun p => p.histogram.stat))) := by
  cases variant <;> exact ⟨rfl, rfl⟩

/-- C6: for every timestamp, the wire histogram sample, the wire exemplar,
the expected vector entry and the expected matrix pair of a single-series
generator call all carry the timestamp converted to epoch milliseconds. -/
theorem histogram_series_timestamp_propagation (variant : HistVariant) (name : String)
    (ts : Int) (draw : Nat) (additionalLabels : List Label) :
    ((variantGenerator variant name ts draw additionalLabels).1.map
        (fun t => t.histograms.map (fun h => h.timestamp)))
      = [[timeToMilliseconds ts]]
    ∧ ((variantGenerator variant name ts draw additionalLabels).1.map
        (fun t => t.exemplars.map (fun e => e.timestamp)))
      = [[timeToMilliseconds ts]]
    ∧ ((variantGenerator variant name ts draw additionalLabels).2.1.map
        (fun s => s.timestamp))
      = [timeToMilliseconds ts]
    ∧ ((variantGenerator variant name ts draw additionalLabels).2.2.map
        (fun m => m.histograms.map (fun p => p.timestamp)))
      = [[timeToMilliseconds ts]] := by
  cases variant <;> exact ⟨rfl, rfl, rfl, rfl⟩

/-- C7: every call of `generateHistogramSeriesWrapper` puts exactly one
exemplar on the generated wire series, whose value is the drawn seed
`v = draw % 1000` (so `v` lies in `[0, 999]`) and whose label set is the
single fixed trace-identifier label.  The expected vector and matrix entry
types (`model.Sample`, `model.SampleStream` as embedded) carry no exemplar
field, so the exemplar appears only on the wire series. -/
theorem histogram_series_exemplar (generateHistogram : Int → Int → PrompbHistogram)
    (name : String) (ts : Int) (draw : Nat) (additionalLabels : List Label) :
    ((generateHistogramSeriesWrapper generateHistogram name ts draw additionalLabels).1.map
        (fun t => t.exemplars))
      = [[{ value := ((randIntn draw 1000 : Nat) : Int),
            timestamp := timeToMilliseconds ts,
            labels := [{ name := "trace_id", value := "1234" }] }]]
    ∧ randIntn draw 1000 < 1000 :=
  ⟨rfl, Nat.mod_lt _ (by decide)⟩

/-- C8: each of the four single-series histogram generators returns a
singleton wire-series list whose series holds exactly one histogram sample,
a singleton expected vector, and a singleton expected matrix whose single
stream holds exactly one timestamp/value pair. -/
theorem histogram_series_singleton (variant : HistVariant) (name : String)
    (ts : Int) (draw : Nat) (additionalLabels : List Label) :
    (variantGenerator variant name ts draw additionalLabels).1.length = 1
    ∧ ((variantGenerator variant name ts draw additionalLabels).1.map
        (fun t => t.histograms.length)) = [1]
    ∧ (variantGenerator variant name ts draw additionalLabels).2.1.length = 1
    ∧ (variantGenerator variant name ts draw additionalLabels).2.2.length = 1
    ∧ ((variantGenerator variant name ts draw additionalLabels).2.2.map
        (fun m => m.histograms.length)) = [1] := by
  cases variant <;> exact ⟨rfl, rfl, rfl, rfl, rfl⟩

/-- C4: the variant selector evaluated at `i = 0..9` yields exactly the
sequence float, counter-integer, counter-float, gauge-integer, gauge-float
twice over, and for every pair of integer indices with equal truncated
remainder mod 5 (in particular `i` and `i + 5` for natural `i`) the selector
returns the same generator — selection is by `i mod 5`, strictly periodic
with period 5. -/
theorem alternating_series_cycle :
    ((List.range 10).map (fun i => generateAlternatingSeries (i : Int)))
      = [SeriesGen.floatSeries, SeriesGen.histogramSeries, SeriesGen.floatHistogramSeries,
         SeriesGen.gaugeHistogramSeries, SeriesGen.gaugeFloatHistogramSeries,
         SeriesGen.floatSeries, SeriesGen.histogramSeries, SeriesGen.floatHistogramSeries,
         SeriesGen.gaugeHistogramSeries, SeriesGen.gaugeFloatHistogramSeries]
    ∧ (∀ i j : Int, Int.tmod i 5 = Int.tmod j 5 →
        generateAlternatingSeries i = generateAlternatingSeries j)
    ∧ (∀ i : Nat, generateAlternatingSeries ((i : Int) + 5) = generateAlternatingSeries (i : Int)) := by
  refine ⟨by decide, generateAlternatingSeries_congr, fun i => ?_⟩
  apply generateAlternatingSeries_congr
  have h5 : ((i : Int) + 5) = ((i + 5 : Nat) : Int) := by push_cast; ring
  have hfive : (5 : Int) = ((5 : Nat) : Int) := rfl
  rw [h5, hfive, ← Int.ofNat_tmod, ← Int.ofNat_tmod, Nat.add_mod_right]

/-- Witness for C4's congruence part at concrete indices. -/
theorem alternating_series_cycle_witness :
    generateAlternatingSeries 7 = generateAlternatingSeries 2 :=
  alternating_series_cycle.2.1 7 2 (by decide)

/-- C9: for every non-negative index the variant selector returns one of the
five generator functions (the `default` branch returning `nil` is
unreachable), while for every negative index whose truncated remainder mod 5
is nonzero it returns the `nil` function reference. -/
theorem alternating_series_totality :
    (∀ i : Int, 0 ≤ i → generateAlternatingSeries i ≠ SeriesGen.nilGen)
    ∧ (∀ i : Int, i < 0 → Int.tmod i 5 ≠ 0 → generateAlternatingSeries i = SeriesGen.nilGen) := by
  constructor
  · intro i hi
    have h0 : 0 ≤ Int.tmod i 5 := Int.tmod_nonneg 5 hi
    have h5 : Int.tmod i 5 < 5 := Int.tmod_lt_of_pos i (by decide)
    have hcases : Int.tmod i 5 = 0 ∨ Int.tmod i 5 = 1 ∨ Int.tmod i 5 = 2
        ∨ Int.tmod i 5 = 3 ∨ Int.tmod i 5 = 4 := by omega
    rcases hcases with h | h | h | h | h <;> simp [generateAlternatingSeries, h]
  · intro i hi hne
    have hkey : Int.tmod (-i) 5 = -(Int.tmod i 5) := by
      simp [Int.tmod_def, Int.neg_tdiv]
      ring
    have h0 : 0 ≤ Int.tmod (-i) 5 := Int.tmod_nonneg 5 (by omega)
    have h5 : Int.tmod (-i) 5 < 5 := Int.tmod_lt_of_pos (-i) (by decide)
    have hcases : Int.tmod i 5 = -1 ∨ Int.tmod i 5 = -2
        ∨ Int.tmod i 5 = -3 ∨ Int.tmod i 5 = -4 := by omega
    rcases hcases with h | h | h | h <;> simp [generateAlternatingSeries, h]

/-- Witness for C9 at concrete indices 7 and -3. -/
theorem alternating_series_totality_witness :
    generateAlternatingSeries 7 ≠ SeriesGen.nilGen
    ∧ generateAlternatingSeries (-3) = SeriesGen.nilGen :=
  ⟨alternating_series_totality.1 7 (by decide),
   alternating_series_totality.2 (-3) (by decide) (by decide)⟩

/-- C10: for every series count `n ≤ 0`, `GenerateNHistogramSeries` returns
an empty wire-series list and an empty expected vector, regardless of the
exemplar count, and its result does not depend on the name or
additional-labels callbacks (the loops never run, so the callbacks are never
invoked). -/
theorem bulk_series_empty_on_nonpositive (n m : Int) (hn : n ≤ 0)
    (name name2 : Nat → String) (ts : Int)
    (al al2 : Option (Nat → List Label)) :
    GenerateNHistogramSeries n m name ts al = ([], [])
    ∧ GenerateNHistogramSeries n m name ts al = GenerateNHistogramSeries n m name2 ts al2 := by
  have h : n.toNat = 0 := Int.toNat_eq_zero.mpr hn
  constructor <;> simp [GenerateNHistogramSeries, h]

/-- Witness for C10 at `n = -1`. -/
theorem bulk_series_empty_on_nonpositive_witness :
    GenerateNHistogramSeries (-1) 3 (fun _ => "metric") 0 none = ([], []) :=
  (bulk_series_empty_on_nonpositive (-1) 3 (by decide) (fun _ => "metric")
    (fun _ => "other") 0 none (some (fun _ => []))).1

/-- C3: in `GenerateNHistogramSeries` with series count `n` and exemplar
count `m`, series and expected vector both have length `n` and, at every
index `i < n`: series `i` carries exactly one exemplar with value `i` when
`i < m` and none otherwise, its histogram is built from seed `i`, and the
expected vector entry at `i` has the statistical value derived from seed
`i`. -/
theorem bulk_series_index_alignment (n m : Int) (name : Nat → String) (ts : Int)
    (al : Option (Nat → List Label)) (i : Nat) (hi : (i : Int) < n) :
    (GenerateNHistogramSeries n m name ts al).1.length = n.toNat
    ∧ (GenerateNHistogramSeries n m name ts al).2.length = n.toNat
    ∧ ((GenerateNHistogramSeries n m name ts al).1[i]?).map (fun s => s.exemplars)
        = some (if (i : Int) < m then
            [{ value := (i : Int), timestamp := timeToMilliseconds ts,
               labels := [{ name := "trace_id", value := "1234" }] }]
          else [])
    ∧ ((GenerateNHistogramSeries n m name ts al).1[i]?).map
          (fun s => s.histograms.map (fun h => h.stat))
        = some [statScheme (i : Int)]
    ∧ ((GenerateNHistogramSeries n m name ts al).2[i]?).map (fun s => s.histogram.stat)
        = some (statScheme (i : Int)) := by
  have hin : i < n.toNat := Int.lt_toNat.mpr hi
  refine ⟨?_, ?_, ?_, ?_, ?_⟩ <;>
    simp [GenerateNHistogramSeries, List.getElem?_mapIdx, List.getElem?_map,
      List.getElem?_range hin, nSeriesEntry, HistogramToHistogramProto,
      generateTestHistogram, generateTestSampleHistogram]

/-- Witness for C3 at `n = 3`, `m = 1`, `i = 0`. -/
theorem bulk_series_index_alignment_witness :
    (GenerateNHistogramSeries 3 1 (fun _ => "metric") 0 none).1.length = (3 : Int).toNat
    ∧ (GenerateNHistogramSeries 3 1 (fun _ => "metric") 0 none).2.length = (3 : Int).toNat
    ∧ ((GenerateNHistogramSeries 3 1 (fun _ => "metric") 0 none).1[(0 : Nat)]?).map
          (fun s => s.exemplars)
        = some (if ((0 : Nat) : Int) < 1 then
            [{ value := ((0 : Nat) : Int), timestamp := timeToMilliseconds 0,
               labels := [{ name := "trace_id", value := "1234" }] }]
          else [])
    ∧ ((GenerateNHistogramSeries 3 1 (fun _ => "metric") 0 none).1[(0 : Nat)]?).map
          (fun s => s.histograms.map (fun h => h.stat))
        = some [statScheme ((0 : Nat) : Int)]
    ∧ ((GenerateNHistogramSeries 3 1 (fun _ => "metric") 0 none).2[(0 : Nat)]?).map
          (fun s => s.histogram.stat)
        = some (statScheme ((0 : Nat) : Int)) :=
  bulk_series_index_alignment 3 1 (fun _ => "metric") 0 none 0 (by decide)

/-- C5: the expected vector of `GenerateNHistogramSeries` has the same
length as the wire-series list, and the metric of expected vector entry `i`
is exactly the `model.Metric` map read off the labels of the already-built
wire series `i` (both sides are `none` beyond the common length). -/
theorem bulk_series_label_derivation (n m : Int) (name : Nat → String) (ts : Int)
    (al : Option (Nat → List Label)) :
    (GenerateNHistogramSeries n m name ts al).2.length
      = (GenerateNHistogramSeries n m name ts al).1.length
    ∧ ∀ i : Nat, ((GenerateNHistogramSeries n m name ts al).2[i]?).map (fun s => s.metric)
        = ((GenerateNHistogramSeries n m name ts al).1[i]?).map (fun s => metricOfLabels s.labels) := by
  constructor
  · simp [GenerateNHistogramSeries]
  · intro i
    simp only [GenerateNHistogramSeries, List.getElem?_mapIdx]
    cases ((List.range n.toNat).map
        (nSeriesEntry m name (timeToMilliseconds ts) al))[i]? <;> rfl

/-- Every binding of `metricSet m n v` is a binding of `m` or the inserted
binding. -/
theorem mem_metricSet (p : String × String) (m : Metric) (n v : String)
    (hp : p ∈ metricSet m n v) : p ∈ m ∨ p = (n, v) := by
  unfold metricSet at hp
  split at hp
  · rcases List.mem_map.mp hp with ⟨q, hqm, hq⟩
    by_cases hq1 : q.1 = n
    · right
      simp only [if_pos hq1] at hq
      exact hq.symm
    · left
      simp only [if_neg hq1] at hq
      exact hq ▸ hqm
  · rcases List.mem_append.mp hp with hpm | hpe
    · exact Or.inl hpm
    · exact Or.inr (List.mem_singleton.mp hpe)

/-- Map assignment acts on the binding set as `insert`, provided `m` holds
no conflicting value for the key. -/
theorem toFinset_metricSet (m : Metric) (n v : String)
    (hc : ∀ v', (n, v') ∈ m → v' = v) :
    (metricSet m n v).toFinset = insert (n, v) m.toFinset := by
  unfold metricSet
  split
  case isTrue h =>
    have hmap : m.map (fun q => if q.1 = n then (n, v) else q) = m := by
      have hid : ∀ q ∈ m, (if q.1 = n then (n, v) else q) = q := by
        intro q hq
        by_cases hq1 : q.1 = n
        · have hv : q.2 = v := hc q.2 (by rw [← hq1]; exact hq)
          simp [if_pos hq1, hq1.symm, hv.symm]
        · simp [if_neg hq1]
      simpa using List.map_congr_left hid
    rw [hmap]
    have hmem : (n, v) ∈ m := by
      rcases List.any_eq_true.mp h with ⟨q, hqm, hq1⟩
      have hq1p : q.1 = n := of_decide_eq_true hq1
      have hv : q.2 = v := hc q.2 (by rw [← hq1p]; exact hqm)
      have : q = (n, v) := Prod.ext hq1p hv
      exact this ▸ hqm
    exact (Finset.insert_eq_self.mpr (List.mem_toFinset.mpr hmem)).symm
  case isFalse h =>
    rw [List.toFinset_append, Finset.union_comm]
    rfl

/-- Folding map assignments over a label list, starting from bindings `m`,
unions the binding sets — provided no key carries two different values
across `m` and the labels. -/
theorem toFinset_foldl_metricSet : ∀ (al : List Label) (m : Metric),
    (∀ p ∈ m, ∀ l ∈ al, l.name = p.1 → l.value = p.2) →
    (∀ l1 ∈ al, ∀ l2 ∈ al, l1.name = l2.name → l1.value = l2.value) →
    (al.foldl (fun acc l => metricSet acc l.name l.value) m).toFinset
      = m.toFinset ∪ (labelPairs al).toFinset
  | [], m, _, _ => by simp [labelPairs]
  | l :: rest, m, h1, h2 => by
    have hc : ∀ v', (l.name, v') ∈ m → v' = l.value := by
      intro v' hv'
      exact (h1 (l.name, v') hv' l (List.mem_cons_self _ _) rfl).symm
    have h1' : ∀ p ∈ metricSet m l.name l.value, ∀ l' ∈ rest,
        l'.name = p.1 → l'.value = p.2 := by
      intro p hp l' hl' hname
      rcases mem_metricSet p m l.name l.value hp with hpm | hpe
      · exact h1 p hpm l' (List.mem_cons_of_mem _ hl') hname
      · subst hpe
        exact h2 l' (List.mem_cons_of_mem _ hl') l (List.mem_cons_self _ _) hname
    have h2' : ∀ l1 ∈ rest, ∀ l2 ∈ rest, l1.name = l2.name → l1.value = l2.value :=
      fun l1 hl1 l2 hl2 =>
        h2 l1 (List.mem_cons_of_mem _ hl1) l2 (List.mem_cons_of_mem _ hl2)
    calc ((l :: rest).foldl (fun acc x => metricSet acc x.name x.value) m).toFinset
        = (rest.foldl (fun acc x => metricSet acc x.name x.value)
            (metricSet m l.name l.value)).toFinset := by rw [List.foldl_cons]
      _ = (metricSet m l.name l.value).toFinset ∪ (labelPairs rest).toFinset :=
          toFinset_foldl_metricSet rest _ h1' h2'
      _ = insert (l.name, l.value) m.toFinset ∪ (labelPairs rest).toFinset := by
          rw [toFinset_metricSet m _ _ hc]
      _ = m.toFinset ∪ (labelPairs (l :: rest)).toFinset := by
          simp [labelPairs, Finset.insert_union, Finset.union_insert]

/-- The wrapper's expected-result metric map has exactly the binding set of
the wire label list, when no label name carries two different values. -/
theorem toFinset_wrapperMetric (name : String) (al : List Label)
    (h : ∀ l1 ∈ ({ name := metricName, value := name } : Label) :: al,
         ∀ l2 ∈ ({ name := metricName, value := name } : Label) :: al,
         l1.name = l2.name → l1.value = l2.value) :
    (wrapperMetric name al).toFinset
      = (labelPairs (({ name := metricName, value := name } : Label) :: al)).toFinset := by
  have h1 : ∀ p ∈ metricSet [] metricName name, ∀ l ∈ al, l.name = p.1 → l.value = p.2 := by
    intro p hp l hl hname
    have hp' : p = (metricName, name) := by
      simpa [metricSet] using hp
    subst hp'
    exact h l (List.mem_cons_of_mem _ hl) { name := metricName, value := name }
      (List.mem_cons_self _ _) hname
  have h2 : ∀ l1 ∈ al, ∀ l2 ∈ al, l1.name = l2.name → l1.value = l2.value :=
    fun l1 hl1 l2 hl2 =>
      h l1 (List.mem_cons_of_mem _ hl1) l2 (List.mem_cons_of_mem _ hl2)
  calc (wrapperMetric name al).toFinset
      = (metricSet [] metricName name).toFinset ∪ (labelPairs al).toFinset :=
        toFinset_foldl_metricSet al (metricSet [] metricName name) h1 h2
    _ = {(metricName, name)} ∪ (labelPairs al).toFinset := by simp [metricSet]
    _ = insert (metricName, name) (labelPairs al).toFinset := rfl
    _ = (labelPairs (({ name := metricName, value := name } : Label) :: al)).toFinset := by
        simp [labelPairs]

/-- C2 counterexample: with additional labels holding the same name twice
with different values, the wire series carries both pairs while the expected
vector entry's metric map keeps only the last, so the label sets differ. -/
theorem single_series_label_fidelity_counterexample :
    ¬ (((GenerateHistogramSeries "metric" 0 0
          [{ name := "a", value := "1" }, { name := "a", value := "2" }]).2.1.map
            (fun s => s.metric.toFinset))
        = ((GenerateHistogramSeries "metric" 0 0
          [{ name := "a", value := "1" }, { name := "a", value := "2" }]).1.map
            (fun t => (labelPairs t.labels).toFinset))) := by
  decide

/-- C2 (amended): whenever no label name occurs with two different values
among the metric-name label and the additional labels, the label set of the
expected vector entry and of the expected matrix entry produced by
`generateHistogramSeriesWrapper` is exactly the label set of the generated
wire series, and the metric-name label name is present in the expected
metric. -/
theorem single_series_label_fidelity (gh : Int → Int → PrompbHistogram)
    (name : String) (ts : Int) (draw : Nat) (al : List Label)
    (h : ∀ l1 ∈ ({ name := metricName, value := name } : Label) :: al,
         ∀ l2 ∈ ({ name := metricName, value := name } : Label) :: al,
         l1.name = l2.name → l1.value = l2.value) :
    ((generateHistogramSeriesWrapper gh name ts draw al).2.1.map
        (fun s => s.metric.toFinset))
      = ((generateHistogramSeriesWrapper gh name ts draw al).1.map
        (fun t => (labelPairs t.labels).toFinset))
    ∧ ((generateHistogramSeriesWrapper gh name ts draw al).2.2.map
        (fun s => s.metric.toFinset))
      = ((generateHistogramSeriesWrapper gh name ts draw al).1.map
        (fun t => (labelPairs t.labels).toFinset))
    ∧ ((generateHistogramSeriesWrapper gh name ts draw al).2.1.map
        (fun s => s.metric.any (fun p => p.1 = metricName))) = [true] := by
  have hcore := toFinset_wrapperMetric name al h
  have hmem : (metricName, name) ∈ wrapperMetric name al := by
    have hin : (metricName, name)
        ∈ (labelPairs (({ name := metricName, value := name } : Label) :: al)).toFinset := by
      simp [labelPairs]
    rw [← hcore] at hin
    exact List.mem_toFinset.mp hin
  refine ⟨?_, ?_, ?_⟩
  · exact congrArg (fun x => [x]) hcore
  · exact congrArg (fun x => [x]) hcore
  · have hany : (wrapperMetric name al).any (fun p => p.1 = metricName) = true :=
      List.any_eq_true.mpr ⟨(metricName, name), hmem, by simp⟩
    exact congrArg (fun x => [x]) hany

/-- Witness for C2 (amended) at a concrete conflict-free label list. -/
theorem single_series_label_fidelity_witness :
    ((generateHistogramSeriesWrapper
        (fun t v => HistogramToHistogramProto t (generateTestHistogram v))
        "metric" 0 0 [{ name := "a", value := "1" }]).2.1.map
        (fun s => s.metric.toFinset))
      = ((generateHistogramSeriesWrapper
        (fun t v => HistogramToHistogramProto t (generateTestHistogram v))
        "metric" 0 0 [{ name := "a", value := "1" }]).1.map
        (fun t => (labelPairs t.labels).toFinset))
    ∧ ((generateHistogramSeriesWrapper
        (fun t v => HistogramToHistogramProto t (generateTestHistogram v))
        "metric" 0 0 [{ name := "a", value := "1" }]).2.2.map
        (fun s => s.metric.toFinset))
      = ((generateHistogramSeriesWrapper
        (fun t v => HistogramToHistogramProto t (generateTestHistogram v))
        "metric" 0 0 [{ name := "a", value := "1" }]).1.map
        (fun t => (labelPairs t.labels).toFinset))
    ∧ ((generateHistogramSeriesWrapper
        (fun t v => HistogramToHistogramProto t (generateTestHistogram v))
        "metric" 0 0 [{ name := "a", value := "1" }]).2.1.map
        (fun s => s.metric.any (fun p => p.1 = metricName))) = [true] :=
  single_series_label_fidelity
    (fun t v => HistogramToHistogramProto t (generateTestHistogram v))
    "metric" 0 0 [{ name := "a", value := "1" }] (by decide)

end Mimir
